import Mathlib

/-!
Shallow embedding of the security control plane of the `secure-personal-os`
repository: the permission manager (`src/security/permission_manager.py`),
the sandbox command policy (`src/security/sandbox.py`) and the credential
vault (`src/security/credential_vault.py`), together with theorems settling
the specification claims about them.

Python dictionaries are embedded as association lists (`List (String × α)`),
`datetime` instants as integer seconds, and `os.urandom` salts as explicit
`Nat` arguments threaded to the operations that draw randomness.
-/

namespace SecurePersonalOS

/-- Association-list read, modelling a Python dict lookup `m[k]` /
`m.get(k)` (`none` models the key being absent / `k not in m`). -/
def alookup {α : Type} (m : List (String × α)) (k : String) : Option α :=
  (m.find? (fun p => p.1 == k)).map (fun p => p.2)

/-- Association-list write, modelling a Python dict store `m[k] = v`:
an existing binding is replaced in place, a new key is appended. -/
def aset {α : Type} (m : List (String × α)) (k : String) (v : α) :
    List (String × α) :=
  match m with
  | [] => [(k, v)]
  | (k', v') :: rest => if k' = k then (k, v) :: rest else (k', v') :: aset rest k v

/-- Association-list delete, modelling Python `del m[k]`. -/
def aremove {α : Type} (m : List (String × α)) (k : String) :
    List (String × α) :=
  m.eraseP (fun p => p.1 == k)

/-- Split a character list at every occurrence of `sep` (the semantics of
`str.split(sep)` on a one-character separator). -/
def splitChar (sep : Char) : List Char → List (List Char)
  | [] => [[]]
  | c :: rest =>
    let r := splitChar sep rest
    if c == sep then [] :: r
    else
      match r with
      | [] => [[c]]
      | h :: t => (c :: h) :: t

/-- `str.startswith`. -/
def strStartsWith (s pre : String) : Bool :=
  pre.toList.isPrefixOf s.toList

/-- `str.endswith`. -/
def strEndsWith (s suf : String) : Bool :=
  suf.toList.reverse.isPrefixOf s.toList.reverse

/-- Python's substring test `sub in s`. -/
def hasSubstr (s sub : List Char) : Bool :=
  match s with
  | [] => sub.isEmpty
  | _ :: rest => sub.isPrefixOf s || hasSubstr rest sub

/-- `os.path.basename`: the component after the last path separator. -/
def basename (p : String) : String :=
  String.mk ((splitChar '/' p.toList).getLastD [])

/-! ## PermissionManager (`src/security/permission_manager.py`) -/

namespace PermissionManager

/-- The `file_access` section of the loaded policy configuration. -/
structure FileAccessConfig where
  allowed_paths : List String
  blocked_paths : List String
  sensitive_extensions : List String

/-- The `web_access` section of the loaded policy configuration
(only the fields `check_action_permission` reads). -/
structure WebAccessConfig where
  require_confirmation : List String
  rate_limits : List (String × Nat)

/-- Every suffix of a list, longest first. -/
def suffixes : List Char → List (List Char)
  | [] => [[]]
  | c :: rest => (c :: rest) :: suffixes rest

/-- `fnmatch.fnmatch` pattern matching (pattern first): `*` matches any
(possibly empty) run of characters, `?` matches one character, every other
character matches itself. (POSIX case-sensitive behaviour; the `[seq]`
character-class form, unused by this repository's patterns, is not modelled.) -/
def globMatch : List Char → List Char → Bool
  | [], s => s.isEmpty
  | '*' :: ps, s => (suffixes s).any (fun t => globMatch ps t)
  | '?' :: ps, s =>
    match s with
    | [] => false
    | _ :: cs => globMatch ps cs
  | pc :: ps, s =>
    match s with
    | [] => false
    | c :: cs => c == pc && globMatch ps cs

/-- `fnmatch.fnmatch(name, pattern)` on strings. -/
def fnmatch (name pattern : String) : Bool :=
  globMatch pattern.toList name.toList

/-- Python's `str.rstrip('/')`: drop every trailing slash. -/
def rstripSlash (s : String) : String :=
  String.mk ((s.toList.reverse.dropWhile (fun c => c == '/')).reverse)

/-- `PermissionManager._path_matches(path, pattern)`. `absf` stands for
`os.path.abspath`, an operating-system function outside the repository,
passed in as a parameter. -/
def path_matches (absf : String → String) (path pattern : String) : Bool :=
  let abs_path := absf path
  if hasSubstr pattern.toList ['*', '*'] then
    fnmatch abs_path pattern
  else if strEndsWith pattern "/" then
    strStartsWith abs_path (absf (rstripSlash pattern) ++ "/")
  else
    strStartsWith abs_path (absf pattern)

/-- `pathlib.Path(p).suffix`: the final extension of the last path
component, including its dot; empty for dotfiles such as `.env` and for
names without an extension. -/
def path_suffix (p : String) : String :=
  match splitChar '.' (basename p).toList with
  | [] => ""
  | [_] => ""
  | first :: rest =>
    if first.isEmpty && rest.length == 1 then ""
    else
      match rest.getLast? with
      | some [] => ""
      | some ext => String.mk ('.' :: ext)
      | none => ""

/-- `str.lower`, per character. -/
def strToLower (s : String) : String :=
  String.mk (s.toList.map Char.toLower)

/-- `PermissionManager._is_sensitive_file`. -/
def is_sensitive_file (sensitive_extensions : List String) (file_path : String) : Bool :=
  sensitive_extensions.contains (strToLower (path_suffix file_path))

/-- `PermissionManager.check_file_access(file_path, action)`: resolve the
path to an absolute path, deny on the first blocked-pattern match, then
allow on the first allowed-pattern match (flagging sensitive extensions in
the reason), otherwise deny. The `action` argument is unused by the source
beyond logging and is elided. -/
def check_file_access (cfg : FileAccessConfig) (absf : String → String)
    (file_path : String) : Bool × String :=
  let abs_path := absf file_path
  match cfg.blocked_paths.find? (fun b => path_matches absf abs_path b) with
  | some b => (false, "Access denied: Path is blocked (" ++ b ++ ")")
  | none =>
    if cfg.allowed_paths = [] then
      (false, "No allowed paths configured")
    else
      match cfg.allowed_paths.find? (fun a => path_matches absf abs_path a) with
      | some _ =>
        if is_sensitive_file cfg.sensitive_extensions abs_path then
          (true, "Sensitive file access: " ++ abs_path)
        else
          (true, "Access granted")
      | none => (false, "Access denied: Path not in allowed directories")

/-- `PermissionManager._check_rate_limit(action, limit)`: prune the
action's recorded timestamps to the trailing hour, deny when the count has
reached the limit, otherwise record `now` and allow. Mutates the
`rate_limiter` table (second component). -/
def check_rate_limit (now : Int) (action : String) (limit : Nat)
    (rate_limiter : List (String × List Int)) :
    Bool × List (String × List Int) :=
  let lst := (alookup rate_limiter action).getD []
  let lst := lst.filter (fun t => decide (now - 3600 < t))
  if limit ≤ lst.length then
    (false, aset rate_limiter action lst)
  else
    (true, aset rate_limiter action (lst ++ [now]))

/-- `PermissionManager.check_action_permission(action)`: confirmation-set
membership first (allowed, confirmation reason), then the configured rate
limit, otherwise unconditionally allowed. -/
def check_action_permission (cfg : WebAccessConfig) (now : Int) (action : String)
    (rate_limiter : List (String × List Int)) :
    (Bool × String) × List (String × List Int) :=
  if cfg.require_confirmation.contains action then
    ((true, "Action '" ++ action ++ "' requires user confirmation"), rate_limiter)
  else
    match alookup cfg.rate_limits action with
    | some limit =>
      match check_rate_limit now action limit rate_limiter with
      | (false, rl) => ((false, "Rate limit exceeded for action '" ++ action ++ "'"), rl)
      | (true, rl) => ((true, "Action permitted"), rl)
    | none => ((true, "Action permitted"), rate_limiter)

/-- `PermissionManager.record_failed_attempt(identifier)`: append `now`,
prune entries older than twice the lockout duration, and report whether the
count within the trailing lockout window has reached `max_attempts`.
`max_attempts` and `lockout_duration` come from the `emergency` config
section (defaults 5 and 300). -/
def record_failed_attempt (max_attempts : Nat) (lockout_duration : Int)
    (now : Int) (identifier : String)
    (failed_attempts : List (String × List Int)) :
    Bool × List (String × List Int) :=
  let attempts := (alookup failed_attempts identifier).getD []
  let attempts := attempts ++ [now]
  let attempts := attempts.filter (fun t => decide (now - 2 * lockout_duration < t))
  let failed_attempts := aset failed_attempts identifier attempts
  let recent := attempts.filter (fun t => decide (now - lockout_duration < t))
  (decide (max_attempts ≤ recent.length), failed_attempts)

/-- `PermissionManager.is_locked_out(identifier)`: re-count the failures
within the trailing lockout window. The source performs no assignment to
`self.failed_attempts`; the unchanged table is returned to make that
visible. -/
def is_locked_out (max_attempts : Nat) (lockout_duration : Int)
    (now : Int) (identifier : String)
    (failed_attempts : List (String × List Int)) :
    Bool × List (String × List Int) :=
  match alookup failed_attempts identifier with
  | none => (false, failed_attempts)
  | some attempts =>
    let recent := attempts.filter (fun t => decide (now - lockout_duration < t))
    (decide (max_attempts ≤ recent.length), failed_attempts)

/-- Harness for the sequential rate-limit scenario: run one
`check_action_permission` call per timestamp, threading the rate-limit
table, and collect the allow/deny verdicts. -/
def run_action_calls (cfg : WebAccessConfig) (action : String) :
    List Int → List (String × List Int) →
    List Bool × List (String × List Int)
  | [], rate_limiter => ([], rate_limiter)
  | t :: ts, rate_limiter =>
    let r := check_action_permission cfg t action rate_limiter
    let rest := run_action_calls cfg action ts r.2
    (r.1.1 :: rest.1, rest.2)

end PermissionManager

/-! ## Sandbox command policy (`src/security/sandbox.py`) -/

namespace Sandbox

/-- `SandboxEnvironment._validate_command`'s `blocked_commands` list. -/
def blocked_commands : List String :=
  ["rm", "rmdir", "del", "format",
   "dd", "fdisk", "mkfs",
   "sudo", "su", "chmod", "chown",
   "curl", "wget", "nc", "netcat",
   "ssh", "scp", "rsync",
   "crontab", "at", "systemctl", "service"]

/-- `SandboxEnvironment._validate_command`'s `allowed_commands` list. -/
def allowed_commands : List String :=
  ["python3", "python", "node", "npm",
   "ls", "cat", "echo", "pwd", "cd",
   "mkdir", "touch", "cp", "mv",
   "grep", "find", "sort", "head", "tail"]

/-- `SandboxEnvironment._validate_command(command)`: an empty argv is
rejected; a deny-listed basename is rejected before any other check; then
the command is permitted when its basename is allow-listed, its executable
path starts with the sandbox directory, or its basename carries a `.py` or
`.sh` extension; everything else is rejected. -/
def validate_command (sandbox_dir : String) (command : List String) : Bool :=
  match command with
  | [] => false
  | c0 :: _ =>
    let base_command := basename c0
    if blocked_commands.contains base_command then
      false
    else if allowed_commands.contains base_command
        || strStartsWith c0 sandbox_dir
        || strEndsWith base_command ".py"
        || strEndsWith base_command ".sh" then
      true
    else
      false

/-- `SandboxEnvironment.execute_sandboxed_command(command, ...)` with an
active sandbox: a command failing validation returns
`(False, "", "Command blocked by security policy")` without reaching
`subprocess.Popen`; otherwise the process is spawned and monitored.
`monitor` stands for the spawn-and-monitor step (`subprocess.Popen` plus
`_monitor_process`), outside the pure policy logic; the second component
records whether a process was spawned. -/
def execute_sandboxed_command (sandbox_dir : String) (command : List String)
    (monitor : List String → Bool × String × String) :
    (Bool × String × String) × Bool :=
  if validate_command sandbox_dir command then
    (monitor command, true)
  else
    ((false, "", "Command blocked by security policy"), false)

end Sandbox

/-! ## CredentialVault (`src/security/credential_vault.py`)

Fernet authenticated encryption is embedded symbolically: a ciphertext is
the pair of the key it was produced under and the plaintext, and decryption
succeeds exactly when the presented key equals the stored one. A derived
key is the pair `(password, salt)`, idealising PBKDF2 as collision-free. -/

namespace CredentialVault

/-- An `os.urandom(16)` key-derivation salt, abstracted to a number. -/
abbrev Salt := Nat

/-- `CredentialVault._derive_key(password, salt)`, idealised as the
injective pairing of its inputs. -/
abbrev Key := String × Salt

def derive_key (password : String) (salt : Salt) : Key :=
  (password, salt)

/-- One stored credential entry, as built by `store_credential`. The
`credential_data` payload dict is embedded opaquely as its serialised
string; the iso-format timestamps are embedded as integer seconds. -/
structure CredEntry where
  service : String
  identifier : String
  data : String
  created : Int
  modified : Int
  access_count : Nat
  last_accessed : Option Int
deriving DecidableEq, Repr

/-- The in-memory credential map: service → identifier → entry. -/
abbrev CredMap := List (String × List (String × CredEntry))

/-- The serialised vault payload (the `vault_data` dict). The `version`,
`created` and `last_modified` fields are never read back by the source and
are elided; `meta_access_count` is the `metadata['access_count']` field,
absent (`none`) in the dicts built by `store_credential`,
`delete_credential` and `change_master_password`. -/
structure VaultData where
  credentials : CredMap
  meta_access_count : Option Nat
deriving DecidableEq, Repr

/-- A Fernet ciphertext: the key it was encrypted under, and the payload. -/
abbrev EncBlob := Key × VaultData

/-- Fernet decryption: succeeds exactly when the keys agree. -/
def fernet_decrypt (key : Key) (blob : EncBlob) : Option VaultData :=
  if blob.1 = key then some blob.2 else none

/-- The `CredentialVault` object state plus the two files it persists:
`vault_path` (`vault_file`) and `vault_path + '.salt'` (`salt_file`),
each `none` when the file does not exist. -/
structure Vault where
  cipher_suite : Option Key
  credentials : CredMap
  last_access : Option Int
  auto_lock_timeout : Int
  vault_file : Option EncBlob
  salt_file : Option Salt
deriving DecidableEq, Repr

/-- `CredentialVault.create_vault(master_password)`: derive a key from a
fresh salt, encrypt an empty credential map and write the vault file.
The fresh salt is stored only inside the encrypted payload (elided here as
dead data): the source writes no salt file on this path. -/
def create_vault (now : Int) (freshSalt : Salt) (master_password : String)
    (v : Vault) : Bool × Vault :=
  let key := derive_key master_password freshSalt
  let vault_data : VaultData := { credentials := [], meta_access_count := some 0 }
  (true, { v with
            cipher_suite := some key,
            credentials := [],
            last_access := some now,
            vault_file := some (key, vault_data) })

/-- `CredentialVault._try_decrypt_vault(encrypted_data, master_password)`:
read the salt file, or generate a fresh salt and write the salt file when
it is missing; derive a key and attempt decryption. `cipher_suite` is set
only on success. -/
def try_decrypt_vault (freshSalt : Salt) (master_password : String)
    (encrypted_data : EncBlob) (v : Vault) : Option VaultData × Vault :=
  match v.salt_file with
  | some salt =>
    match fernet_decrypt (derive_key master_password salt) encrypted_data with
    | some vd => (some vd, { v with cipher_suite := some (derive_key master_password salt) })
    | none => (none, v)
  | none =>
    let v := { v with salt_file := some freshSalt }
    match fernet_decrypt (derive_key master_password freshSalt) encrypted_data with
    | some vd => (some vd, { v with cipher_suite := some (derive_key master_password freshSalt) })
    | none => (none, v)

/-- `CredentialVault._save_vault(vault_data)`: re-encrypt under the current
cipher suite and overwrite the vault file; `none` models the
`RuntimeError` raised when the vault is not unlocked. -/
def save_vault (vault_data : VaultData) (v : Vault) : Option Vault :=
  match v.cipher_suite with
  | some key => some { v with vault_file := some (key, vault_data) }
  | none => none

/-- `CredentialVault._unlock_vault(master_password)` (also the public
`unlock_vault`): create a new vault when no vault file exists; otherwise
attempt decryption, returning `False` and staying locked on failure, and on
success load the credential map, set `last_access`, bump the persisted
access counter and rewrite the vault file. -/
def unlock_vault (now : Int) (freshSalt : Salt) (master_password : String)
    (v : Vault) : Bool × Vault :=
  match v.vault_file with
  | none => create_vault now freshSalt master_password v
  | some encrypted_data =>
    match try_decrypt_vault freshSalt master_password encrypted_data v with
    | (none, v1) => (false, v1)
    | (some vault_data, v1) =>
      let v2 := { v1 with credentials := vault_data.credentials, last_access := some now }
      let vault_data2 := { vault_data with
        meta_access_count := some (vault_data.meta_access_count.getD 0 + 1) }
      match save_vault vault_data2 v2 with
      | some v3 => (true, v3)
      | none => (false, v2)

/-- `CredentialVault.lock_vault()`: clear the key and the in-memory map. -/
def lock_vault (v : Vault) : Vault :=
  { v with cipher_suite := none, credentials := [], last_access := none }

/-- `CredentialVault.is_locked()`: `True` when no cipher suite is held;
otherwise enforce the auto-lock: when the idle time strictly exceeds
`auto_lock_timeout` (and the timeout is positive), self-transition to
locked and answer `True`. -/
def is_locked (now : Int) (v : Vault) : Bool × Vault :=
  match v.cipher_suite with
  | none => (true, v)
  | some _ =>
    match v.last_access with
    | some t =>
      if 0 < v.auto_lock_timeout ∧ v.auto_lock_timeout < now - t then
        (true, lock_vault v)
      else
        (false, v)
    | none => (false, v)

/-- Dict upsert `self.credentials[service][identifier] = entry`, creating
the service map when absent. -/
def credInsert (m : CredMap) (service identifier : String) (e : CredEntry) : CredMap :=
  aset m service (aset ((alookup m service).getD []) identifier e)

/-- `CredentialVault.store_credential(service, identifier, credential_data)`:
refuse when locked; otherwise touch `last_access`, upsert a fresh entry and
rewrite the vault file. -/
def store_credential (now : Int) (service identifier : String)
    (credential_data : String) (v : Vault) : Bool × Vault :=
  match is_locked now v with
  | (true, v1) => (false, v1)
  | (false, v1) =>
    let v2 := { v1 with last_access := some now }
    let entry : CredEntry :=
      { service := service, identifier := identifier, data := credential_data,
        created := now, modified := now, access_count := 0, last_accessed := none }
    let creds := credInsert v2.credentials service identifier entry
    let v3 := { v2 with credentials := creds }
    let vault_data : VaultData := { credentials := creds, meta_access_count := none }
    match save_vault vault_data v3 with
    | some v4 => (true, v4)
    | none => (false, v3)

/-- The value `retrieve_credential` returns on a hit: a single entry when
an identifier was given, the service's whole identifier map otherwise. -/
inductive RetrieveVal where
  | entry (e : CredEntry)
  | serviceMap (m : List (String × CredEntry))
deriving DecidableEq, Repr

/-- `CredentialVault.retrieve_credential(service, identifier)`: refuse when
locked; touch `last_access`; on a single-entry hit increment the entry's
`access_count` and set its `last_accessed` in the in-memory map. The
source calls `_save_vault` nowhere on this path: the vault file is not
rewritten. -/
def retrieve_credential (now : Int) (service : String) (identifier : Option String)
    (v : Vault) : Option RetrieveVal × Vault :=
  match is_locked now v with
  | (true, v1) => (none, v1)
  | (false, v1) =>
    let v2 := { v1 with last_access := some now }
    match alookup v2.credentials service with
    | none => (none, v2)
    | some svc =>
      match identifier with
      | none => (some (.serviceMap svc), v2)
      | some ident =>
        match alookup svc ident with
        | none => (none, v2)
        | some e =>
          let e2 := { e with access_count := e.access_count + 1, last_accessed := some now }
          let v3 := { v2 with credentials := aset v2.credentials service (aset svc ident e2) }
          (some (.entry e2), v3)

/-- `CredentialVault.delete_credential(service, identifier)`: refuse when
locked; remove one identifier (dropping the service key when its map
empties) or a whole service, then rewrite the vault file. -/
def delete_credential (now : Int) (service : String) (identifier : Option String)
    (v : Vault) : Bool × Vault :=
  match is_locked now v with
  | (true, v1) => (false, v1)
  | (false, v1) =>
    match alookup v1.credentials service with
    | none => (false, v1)
    | some svc =>
      let creds :=
        match identifier with
        | none => aremove v1.credentials service
        | some ident =>
          match alookup svc ident with
          | none => v1.credentials
          | some _ =>
            let svc2 := aremove svc ident
            if svc2.isEmpty then aremove v1.credentials service
            else aset v1.credentials service svc2
      let v2 := { v1 with credentials := creds }
      let vault_data : VaultData := { credentials := creds, meta_access_count := none }
      match save_vault vault_data v2 with
      | some v3 => (true, v3)
      | none => (false, v2)

/-- The dict `get_vault_stats` returns: bare `{'status': 'locked'}` when
locked, else the counts, last access and timeout — never any payload. -/
inductive VaultStats where
  | locked
  | unlocked (services : Nat) (total_credentials : Nat)
      (last_access : Option Int) (auto_lock_timeout : Int)
deriving DecidableEq, Repr

/-- `CredentialVault.get_vault_stats()`. -/
def get_vault_stats (now : Int) (v : Vault) : VaultStats × Vault :=
  match is_locked now v with
  | (true, v1) => (.locked, v1)
  | (false, v1) =>
    (.unlocked v1.credentials.length
      (v1.credentials.foldl (fun acc p => acc + p.2.length) 0)
      v1.last_access v1.auto_lock_timeout, v1)

/-- The body of `change_master_password` after the lock check: draw a fresh
salt, derive the new key, re-encrypt the credential map, write the new salt
file, write the new vault file, install the new cipher suite. -/
def change_password_body (_now : Int) (newSalt : Salt) (new_password : String)
    (v : Vault) : Bool × Vault :=
  let key := derive_key new_password newSalt
  let vault_data : VaultData := { credentials := v.credentials, meta_access_count := none }
  (true, { v with
            salt_file := some newSalt,
            vault_file := some (key, vault_data),
            cipher_suite := some key })

/-- `CredentialVault.change_master_password(current_password, new_password)`:
when locked, first unlock with `current_password` (failing returns
`False`); when already unlocked, `current_password` is never consulted. -/
def change_master_password (now : Int) (unlockSalt newSalt : Salt)
    (current_password new_password : String) (v : Vault) : Bool × Vault :=
  match is_locked now v with
  | (true, v1) =>
    match unlock_vault now unlockSalt current_password v1 with
    | (false, v2) => (false, v2)
    | (true, v2) => change_password_body now newSalt new_password v2
  | (false, v1) => change_password_body now newSalt new_password v1

end CredentialVault

/-! ## Concrete states used by witnesses and counterexamples -/

open PermissionManager Sandbox CredentialVault

/-- A freshly constructed vault object: locked, no vault file, no salt file. -/
def vinit : Vault :=
  { cipher_suite := none, credentials := [], last_access := none,
    auto_lock_timeout := 1800, vault_file := none, salt_file := none }

/-- A concrete stored entry for the retrieval scenarios. -/
def entry0 : CredEntry :=
  { service := "mail", identifier := "a", data := "x", created := 0,
    modified := 0, access_count := 0, last_accessed := none }

def creds0 : CredMap := [("mail", [("a", entry0)])]

def key0 : Key := ("pw", 0)

def vd0 : VaultData := { credentials := creds0, meta_access_count := none }

/-- An unlocked vault holding `entry0`, with the vault file in sync with
the in-memory map. -/
def v0 : Vault :=
  { cipher_suite := some key0, credentials := creds0, last_access := some 100,
    auto_lock_timeout := 1800, vault_file := some (key0, vd0), salt_file := some 0 }

/-- The file-access policy of the deny-first witness scenario. -/
def cfgFile0 : FileAccessConfig :=
  { allowed_paths := ["/home/u/"], blocked_paths := ["/home/u/.ssh/"],
    sensitive_extensions := [] }

/-- The web-access policy of the rate-limit witness scenarios. -/
def cfgWeb0 : WebAccessConfig :=
  { require_confirmation := [], rate_limits := [("send_email", 2)] }

/-! ## Association-list lemmas -/

theorem alookup_aset {α : Type} (m : List (String × α)) (k : String) (v : α) :
    alookup (aset m k v) k = some v := by
  induction m with
  | nil => simp [alookup, aset]
  | cons hd tl ih =>
    obtain ⟨k', v'⟩ := hd
    by_cases h : k' = k
    · subst h
      simp [alookup, aset]
    · have hb : (k' == k) = false := by simpa using h
      simp only [aset, if_neg h]
      simpa [alookup, List.find?_cons, hb] using ih

theorem aset_aset {α : Type} (m : List (String × α)) (k : String) (v w : α) :
    aset (aset m k v) k w = aset m k w := by
  induction m with
  | nil => simp [aset]
  | cons hd tl ih =>
    obtain ⟨k', v'⟩ := hd
    by_cases h : k' = k
    · subst h
      simp [aset]
    · simp [aset, if_neg h, ih]

/-! ## C3 — deny-first precedence of blocked paths -/

/-- Claim C3: for every path and every policy configuration, a path whose
resolved absolute form matches any block-pattern is denied by
`check_file_access`, regardless of the allow-list (deny-first precedence).
`absf` ranges over every possible `os.path.abspath` resolution. -/
theorem C3_block_precedence (cfg : FileAccessConfig) (absf : String → String)
    (path : String)
    (h : ∃ b ∈ cfg.blocked_paths, path_matches absf (absf path) b = true) :
    (check_file_access cfg absf path).1 = false := by
  obtain ⟨b, hb, hm⟩ := h
  cases hf : cfg.blocked_paths.find? (fun q => path_matches absf (absf path) q) with
  | some q =>
    simp only [check_file_access]
    rw [hf]
  | none =>
    rw [List.find?_eq_none] at hf
    exact absurd hm (by simpa using hf b hb)

/-- Witness for C3: `/home/u/.ssh/id_rsa` matches the blocked pattern
`/home/u/.ssh/` and also the allowed pattern `/home/u/`, and is denied. -/
theorem C3_block_precedence_witness :
    (check_file_access cfgFile0 id "/home/u/.ssh/id_rsa").1 = false ∧
    path_matches id (id "/home/u/.ssh/id_rsa") "/home/u/" = true :=
  ⟨C3_block_precedence cfgFile0 id "/home/u/.ssh/id_rsa"
      ⟨"/home/u/.ssh/", by decide, by decide⟩,
   by decide⟩

/-! ## C4 — sandbox command policy -/

theorem allowed_not_blocked (b : String)
    (h : allowed_commands.contains b = true) :
    blocked_commands.contains b = false := by
  have hm : b ∈ allowed_commands := by
    simpa [List.contains, List.elem_iff] using h
  fin_cases hm <;> decide

/-- Claim C4: a deny-listed basename is rejected with the policy-violation
result and no spawn, even when its path lies inside the sandbox directory;
an allow-listed basename is permitted (validation passes and the process is
spawned); a basename on neither list whose path is outside the sandbox and
which carries no recognised script extension is rejected before spawn. The
final `Bool` of `execute_sandboxed_command` records whether a process was
spawned. -/
theorem C4_command_policy (sandbox_dir c0 : String) (rest : List String)
    (monitor : List String → Bool × String × String) :
    (blocked_commands.contains (basename c0) = true →
      execute_sandboxed_command sandbox_dir (c0 :: rest) monitor =
        ((false, "", "Command blocked by security policy"), false)) ∧
    (allowed_commands.contains (basename c0) = true →
      execute_sandboxed_command sandbox_dir (c0 :: rest) monitor =
        (monitor (c0 :: rest), true)) ∧
    (blocked_commands.contains (basename c0) = false →
      allowed_commands.contains (basename c0) = false →
      strStartsWith c0 sandbox_dir = false →
      strEndsWith (basename c0) ".py" = false →
      strEndsWith (basename c0) ".sh" = false →
      execute_sandboxed_command sandbox_dir (c0 :: rest) monitor =
        ((false, "", "Command blocked by security policy"), false)) := by
  refine ⟨fun hbl => ?_, fun hal => ?_, fun hbl hal hsb hpy hsh => ?_⟩
  · simp only [execute_sandboxed_command, validate_command, hbl]
    simp
  · have hnb := allowed_not_blocked (basename c0) hal
    simp only [execute_sandboxed_command, validate_command, hnb, hal]
    simp
  · simp only [execute_sandboxed_command, validate_command, hbl, hal, hsb, hpy, hsh]
    simp

/-- Witness for C4: `sudo` placed inside the sandbox directory is rejected
without a spawn, `ls -la` is permitted and spawned, and `/usr/bin/gcc` is
rejected without a spawn. -/
theorem C4_command_policy_witness :
    execute_sandboxed_command "/tmp/sb" ["/tmp/sb/sudo"]
        (fun _ => (true, "ok", "")) =
      ((false, "", "Command blocked by security policy"), false) ∧
    execute_sandboxed_command "/tmp/sb" ["ls", "-la"]
        (fun _ => (true, "ok", "")) =
      ((true, "ok", ""), true) ∧
    execute_sandboxed_command "/tmp/sb" ["/usr/bin/gcc"]
        (fun _ => (true, "ok", "")) =
      ((false, "", "Command blocked by security policy"), false) :=
  ⟨(C4_command_policy "/tmp/sb" "/tmp/sb/sudo" [] (fun _ => (true, "ok", ""))).1
      (by decide),
   (C4_command_policy "/tmp/sb" "ls" ["-la"] (fun _ => (true, "ok", ""))).2.1
      (by decide),
   (C4_command_policy "/tmp/sb" "/usr/bin/gcc" [] (fun _ => (true, "ok", ""))).2.2
      (by decide) (by decide) (by decide) (by decide) (by decide)⟩

/-! ## C5 — failed-attempt lockout -/

/-- One `record_failed_attempt` call in which every attempt (old and new)
still lies inside the trailing lockout window: nothing is pruned, the new
attempt is appended, and the verdict counts every recorded attempt. -/
theorem record_all_recent (max_attempts : Nat) (d now : Int) (ident : String)
    (m : List (String × List Int)) (prev : List Int)
    (hprev : (alookup m ident).getD [] = prev)
    (hall : ∀ t ∈ prev ++ [now], now - d < t) :
    record_failed_attempt max_attempts d now ident m =
      (decide (max_attempts ≤ prev.length + 1), aset m ident (prev ++ [now])) := by
  have h2 : (prev ++ [now]).filter (fun t => decide (now - 2 * d < t)) = prev ++ [now] := by
    rw [List.filter_eq_self]
    intro t ht
    have hd : now - d < t := hall t ht
    have hnow : now - d < now := hall now (by simp)
    simp only [decide_eq_true_eq]
    omega
  have h1 : (prev ++ [now]).filter (fun t => decide (now - d < t)) = prev ++ [now] := by
    rw [List.filter_eq_self]
    intro t ht
    simpa using hall t ht
  simp only [record_failed_attempt, hprev, h2, h1, List.length_append, List.length_cons,
    List.length_nil]

/-- Claim C5: with `maxFailedAttempts = 5` and `lockoutDuration = 300`,
five `recordFailedAttempt` calls for the same identifier within 300
seconds make `isLockedOut` answer true (the fifth call already reports the
lockout); once 300 seconds have elapsed after the last failure with no
further calls, `isLockedOut` answers false again; and `isLockedOut` leaves
the failure table unchanged both times. -/
theorem C5_lockout (ident : String) (t1 t2 t3 t4 t5 now2 : Int)
    (h12 : t1 ≤ t2) (h23 : t2 ≤ t3) (h34 : t3 ≤ t4) (h45 : t4 ≤ t5)
    (hwin : t5 - t1 < 300) (hrec : t5 + 300 ≤ now2) :
    (let m1 := (record_failed_attempt 5 300 t1 ident []).2
     let m2 := (record_failed_attempt 5 300 t2 ident m1).2
     let m3 := (record_failed_attempt 5 300 t3 ident m2).2
     let m4 := (record_failed_attempt 5 300 t4 ident m3).2
     let m5 := (record_failed_attempt 5 300 t5 ident m4).2
     (record_failed_attempt 5 300 t5 ident m4).1 = true ∧
     is_locked_out 5 300 t5 ident m5 = (true, m5) ∧
     is_locked_out 5 300 now2 ident m5 = (false, m5)) := by
  have e1 : record_failed_attempt 5 300 t1 ident [] = (false, [(ident, [t1])]) := by
    have h := record_all_recent 5 300 t1 ident [] [] rfl
      (by intro t ht; simp at ht; omega)
    simpa [aset] using h
  have e2 : record_failed_attempt 5 300 t2 ident [(ident, [t1])] =
      (false, [(ident, [t1, t2])]) := by
    have h := record_all_recent 5 300 t2 ident [(ident, [t1])] [t1]
      (by simp [alookup, List.find?_cons])
      (by intro t ht; simp at ht; rcases ht with rfl | rfl <;> omega)
    simpa [aset] using h
  have e3 : record_failed_attempt 5 300 t3 ident [(ident, [t1, t2])] =
      (false, [(ident, [t1, t2, t3])]) := by
    have h := record_all_recent 5 300 t3 ident [(ident, [t1, t2])] [t1, t2]
      (by simp [alookup, List.find?_cons])
      (by intro t ht; simp at ht; rcases ht with rfl | rfl | rfl <;> omega)
    simpa [aset] using h
  have e4 : record_failed_attempt 5 300 t4 ident [(ident, [t1, t2, t3])] =
      (false, [(ident, [t1, t2, t3, t4])]) := by
    have h := record_all_recent 5 300 t4 ident [(ident, [t1, t2, t3])] [t1, t2, t3]
      (by simp [alookup, List.find?_cons])
      (by intro t ht; simp at ht; rcases ht with rfl | rfl | rfl | rfl <;> omega)
    simpa [aset] using h
  have e5 : record_failed_attempt 5 300 t5 ident [(ident, [t1, t2, t3, t4])] =
      (true, [(ident, [t1, t2, t3, t4, t5])]) := by
    have h := record_all_recent 5 300 t5 ident [(ident, [t1, t2, t3, t4])] [t1, t2, t3, t4]
      (by simp [alookup, List.find?_cons])
      (by intro t ht; simp at ht; rcases ht with rfl | rfl | rfl | rfl | rfl <;> omega)
    simpa [aset] using h
  have hlook : alookup [(ident, [t1, t2, t3, t4, t5])] ident =
      some [t1, t2, t3, t4, t5] := by
    simp [alookup, List.find?_cons]
  refine ⟨?_, ?_, ?_⟩
  · simp only [e1, e2, e3, e4, e5]
  · simp only [e1, e2, e3, e4, e5]
    have hf : [t1, t2, t3, t4, t5].filter (fun t => decide (t5 - 300 < t)) =
        [t1, t2, t3, t4, t5] := by
      rw [List.filter_eq_self]
      intro t ht
      simp at ht
      rcases ht with rfl | rfl | rfl | rfl | rfl <;> simp <;> omega
    simp only [is_locked_out, hlook, hf]
    norm_num
  · simp only [e1, e2, e3, e4, e5]
    have hf : [t1, t2, t3, t4, t5].filter (fun t => decide (now2 - 300 < t)) = [] := by
      rw [List.filter_eq_nil_iff]
      intro t ht
      simp at ht
      rcases ht with rfl | rfl | rfl | rfl | rfl <;> simp <;> omega
    simp only [is_locked_out, hlook, hf]
    norm_num

/-- Witness for C5: failures at 0, 10, 20, 30, 40 seconds lock the
identifier out at time 40; at time 340 the lockout has expired. -/
theorem C5_lockout_witness :
    (let m1 := (record_failed_attempt 5 300 0 "user" []).2
     let m2 := (record_failed_attempt 5 300 10 "user" m1).2
     let m3 := (record_failed_attempt 5 300 20 "user" m2).2
     let m4 := (record_failed_attempt 5 300 30 "user" m3).2
     let m5 := (record_failed_attempt 5 300 40 "user" m4).2
     (record_failed_attempt 5 300 40 "user" m4).1 = true ∧
     is_locked_out 5 300 40 "user" m5 = (true, m5) ∧
     is_locked_out 5 300 340 "user" m5 = (false, m5)) :=
  C5_lockout "user" 0 10 20 30 40 340 (by decide) (by decide) (by decide)
    (by decide) (by decide) (by decide)

/-! ## C6 and C10 — action rate limiting -/

/-- A rate-limited, non-confirmation action whose non-expired count has
reached the limit is denied, and the table keeps exactly the non-expired
timestamps (no new timestamp is appended). -/
theorem check_action_rate_denied (cfg : WebAccessConfig) (now : Int)
    (action : String) (limit : Nat) (rl : List (String × List Int))
    (hc : cfg.require_confirmation.contains action = false)
    (hl : alookup cfg.rate_limits action = some limit)
    (hfull : limit ≤
      (((alookup rl action).getD []).filter (fun t => decide (now - 3600 < t))).length) :
    check_action_permission cfg now action rl =
      ((false, "Rate limit exceeded for action '" ++ action ++ "'"),
       aset rl action
         (((alookup rl action).getD []).filter (fun t => decide (now - 3600 < t)))) := by
  simp only [check_action_permission, hc, hl, check_rate_limit]
  simp [hfull]

/-- A rate-limited, non-confirmation action whose non-expired count is
below the limit is allowed and its timestamp recorded. -/
theorem check_action_rate_allowed (cfg : WebAccessConfig) (now : Int)
    (action : String) (limit : Nat) (rl : List (String × List Int))
    (hc : cfg.require_confirmation.contains action = false)
    (hl : alookup cfg.rate_limits action = some limit)
    (hroom :
      (((alookup rl action).getD []).filter (fun t => decide (now - 3600 < t))).length <
        limit) :
    check_action_permission cfg now action rl =
      ((true, "Action permitted"),
       aset rl action
         ((((alookup rl action).getD []).filter (fun t => decide (now - 3600 < t))) ++
           [now])) := by
  have hn : ¬ (limit ≤
      (((alookup rl action).getD []).filter (fun t => decide (now - 3600 < t))).length) :=
    Nat.not_le.mpr hroom
  simp only [check_action_permission, hc, hl, check_rate_limit]
  simp [hn]

/-- Running one permitted call per timestamp, all inside one common
sub-hour window and never exceeding the limit: every call is allowed and
the table ends holding the previously recorded timestamps followed by the
new ones, in order. -/
theorem run_calls_all_allowed (cfg : WebAccessConfig) (action : String) (limit : Nat)
    (hc : cfg.require_confirmation.contains action = false)
    (hl : alookup cfg.rate_limits action = some limit) :
    ∀ (ts : List Int) (lo hi : Int) (rl : List (String × List Int)) (cur : List Int),
      (alookup rl action).getD [] = cur →
      (∀ u ∈ cur, lo ≤ u ∧ u ≤ hi) →
      (∀ u ∈ ts, lo ≤ u ∧ u ≤ hi) →
      hi - lo < 3600 →
      cur.length + ts.length ≤ limit →
      (run_action_calls cfg action ts rl).1 = ts.map (fun _ => true) ∧
      (ts = [] → (run_action_calls cfg action ts rl).2 = rl) ∧
      (ts ≠ [] → (run_action_calls cfg action ts rl).2 = aset rl action (cur ++ ts)) := by
  intro ts
  induction ts with
  | nil =>
    intro lo hi rl cur hcur hwc hwt hspan hlen
    exact ⟨rfl, fun _ => rfl, fun hne => absurd rfl hne⟩
  | cons t ts ih =>
    intro lo hi rl cur hcur hwc hwt hspan hlen
    have hwt' : ∀ u ∈ ts, lo ≤ u ∧ u ≤ hi := fun u hu => hwt u (List.mem_cons_of_mem _ hu)
    have ht : lo ≤ t ∧ t ≤ hi := hwt t (List.mem_cons_self _ _)
    have hfilt : cur.filter (fun u => decide (t - 3600 < u)) = cur := by
      rw [List.filter_eq_self]
      intro u hu
      have := hwc u hu
      simp only [decide_eq_true_eq]
      omega
    have hroom : cur.length < limit := by
      simp only [List.length_cons] at hlen
      omega
    have hstep : check_action_permission cfg t action rl =
        ((true, "Action permitted"), aset rl action (cur ++ [t])) := by
      have h := check_action_rate_allowed cfg t action limit rl hc hl
        (by rw [hcur, hfilt]; exact hroom)
      rw [hcur, hfilt] at h
      exact h
    have hrest := ih lo hi (aset rl action (cur ++ [t])) (cur ++ [t])
      (by rw [alookup_aset]; rfl)
      (by
        intro u hu
        rcases List.mem_append.mp hu with h | h
        · exact hwc u h
        · simp at h
          subst h
          exact ht)
      hwt' hspan
      (by
        simp only [List.length_append, List.length_cons, List.length_nil] at hlen ⊢
        omega)
    refine ⟨?_, ?_, fun _ => ?_⟩
    · simp only [run_action_calls, hstep, hrest.1, List.map_cons]
    · intro h
      cases h
    · rcases Decidable.em (ts = []) with he | hne
      · subst he
        simp only [run_action_calls, hstep, hrest.2.1 rfl]
      · have h2 := hrest.2.2 hne
        simp only [run_action_calls, hstep, h2, aset_aset, List.append_assoc,
          List.singleton_append]

/-- Claim C6: for an action with configured rate limit `limit` and not in
the confirmation set, starting from an empty table, each of the first
`limit` calls inside one hour is allowed and records its timestamp; the
next call within the hour is denied and consumes nothing; and once the
oldest recorded timestamp (`t_old`, the first call) has aged past one
hour, a further call is allowed again. -/
theorem C6_rate_limit_window (cfg : WebAccessConfig) (action : String)
    (limit : Nat) (t_old : Int) (ts : List Int) (lo hi tNext tRec : Int)
    (hc : cfg.require_confirmation.contains action = false)
    (hl : alookup cfg.rate_limits action = some limit)
    (hwin : ∀ u ∈ t_old :: ts, lo ≤ u ∧ u ≤ hi)
    (hspan : hi - lo < 3600)
    (hN : (t_old :: ts).length = limit)
    (hden : ∀ u ∈ t_old :: ts, tNext - 3600 < u)
    (hrec : t_old ≤ tRec - 3600) :
    (run_action_calls cfg action (t_old :: ts) []).1 =
      (t_old :: ts).map (fun _ => true) ∧
    (run_action_calls cfg action (t_old :: ts) []).2 = [(action, t_old :: ts)] ∧
    (check_action_permission cfg tNext action [(action, t_old :: ts)]).1.1 = false ∧
    (check_action_permission cfg tNext action [(action, t_old :: ts)]).2 =
      [(action, t_old :: ts)] ∧
    (check_action_permission cfg tRec action [(action, t_old :: ts)]).1.1 = true := by
  have hrun := run_calls_all_allowed cfg action limit hc hl (t_old :: ts) lo hi [] []
    rfl (by simp) hwin hspan (by simp [hN])
  have hstate : (run_action_calls cfg action (t_old :: ts) []).2 =
      [(action, t_old :: ts)] := by
    have h := hrun.2.2 (List.cons_ne_nil _ _)
    simpa [aset] using h
  have hlook : alookup [(action, t_old :: ts)] action = some (t_old :: ts) := by
    simp [alookup, List.find?_cons]
  have hfden : (t_old :: ts).filter (fun t => decide (tNext - 3600 < t)) = t_old :: ts := by
    rw [List.filter_eq_self]
    intro u hu
    simpa using hden u hu
  have hdenied := check_action_rate_denied cfg tNext action limit [(action, t_old :: ts)]
    hc hl (by rw [hlook]; simp only [Option.getD_some]; rw [hfden, hN])
  rw [hlook] at hdenied
  simp only [Option.getD_some, hfden] at hdenied
  have hfrec : (t_old :: ts).filter (fun t => decide (tRec - 3600 < t)) =
      ts.filter (fun t => decide (tRec - 3600 < t)) := by
    simp only [List.filter_cons]
    have : ¬ (tRec - 3600 < t_old) := by omega
    simp [this]
  have hallowed := check_action_rate_allowed cfg tRec action limit [(action, t_old :: ts)]
    hc hl
    (by
      rw [hlook]
      simp only [Option.getD_some, hfrec]
      have hle := List.length_filter_le (fun t => decide (tRec - 3600 < t)) ts
      simp only [List.length_cons] at hN
      omega)
  refine ⟨hrun.1, hstate, ?_, ?_, ?_⟩
  · rw [hdenied]
  · rw [hdenied]
    simp [aset]
  · rw [hallowed]

/-- Witness for C6: limit 2 for `send_email`; calls at 0 and 10 are
allowed, the call at 20 is denied and leaves the table unchanged, and the
call at 3600 (the oldest timestamp having aged out) is allowed. -/
theorem C6_rate_limit_window_witness :
    (run_action_calls cfgWeb0 "send_email" [0, 10] []).1 =
      [0, 10].map (fun _ => true) ∧
    (run_action_calls cfgWeb0 "send_email" [0, 10] []).2 = [("send_email", [0, 10])] ∧
    (check_action_permission cfgWeb0 20 "send_email" [("send_email", [0, 10])]).1.1 =
      false ∧
    (check_action_permission cfgWeb0 20 "send_email" [("send_email", [0, 10])]).2 =
      [("send_email", [0, 10])] ∧
    (check_action_permission cfgWeb0 3600 "send_email" [("send_email", [0, 10])]).1.1 =
      true :=
  C6_rate_limit_window cfgWeb0 "send_email" 2 0 [10] 0 10 20 3600
    (by decide) (by decide) (by decide) (by decide) (by decide) (by decide) (by decide)

/-- Claim C10: a denied rate-limited call consumes no capacity: when the
non-expired count for the action has reached its limit, the check denies,
appends no timestamp, and the set of non-expired timestamps in the
action's window is unchanged. -/
theorem C10_denied_consumes_no_capacity (cfg : WebAccessConfig) (now : Int)
    (action : String) (limit : Nat) (rl : List (String × List Int))
    (hc : cfg.require_confirmation.contains action = false)
    (hl : alookup cfg.rate_limits action = some limit)
    (hfull : limit ≤
      (((alookup rl action).getD []).filter (fun t => decide (now - 3600 < t))).length) :
    (check_action_permission cfg now action rl).1.1 = false ∧
    (check_action_permission cfg now action rl).2 =
      aset rl action
        (((alookup rl action).getD []).filter (fun t => decide (now - 3600 < t))) ∧
    ((alookup (check_action_permission cfg now action rl).2 action).getD []).filter
        (fun t => decide (now - 3600 < t)) =
      ((alookup rl action).getD []).filter (fun t => decide (now - 3600 < t)) := by
  have hdenied := check_action_rate_denied cfg now action limit rl hc hl hfull
  refine ⟨by rw [hdenied], by rw [hdenied], ?_⟩
  rw [hdenied]
  simp only [alookup_aset, Option.getD_some]
  rw [List.filter_eq_self]
  intro u hu
  exact (List.mem_filter.mp hu).2

/-- Witness for C10: with limit 2 and both recorded timestamps inside the
window, the call at 20 is denied and the non-expired set stays `[0, 10]`. -/
theorem C10_denied_consumes_no_capacity_witness :
    (check_action_permission cfgWeb0 20 "send_email" [("send_email", [0, 10])]).1.1 =
      false ∧
    (check_action_permission cfgWeb0 20 "send_email" [("send_email", [0, 10])]).2 =
      aset [("send_email", [0, 10])] "send_email"
        (((alookup [("send_email", [0, 10])] "send_email").getD []).filter
          (fun t => decide ((20 : Int) - 3600 < t))) ∧
    ((alookup
          (check_action_permission cfgWeb0 20 "send_email"
            [("send_email", [0, 10])]).2 "send_email").getD []).filter
        (fun t => decide ((20 : Int) - 3600 < t)) =
      ((alookup [("send_email", [0, 10])] "send_email").getD []).filter
        (fun t => decide ((20 : Int) - 3600 < t)) :=
  C10_denied_consumes_no_capacity cfgWeb0 20 "send_email" 2 [("send_email", [0, 10])]
    (by decide) (by decide) (by decide)

/-! ## Vault lemmas -/

/-- When `is_locked` answers false it has changed nothing: both
non-locking branches return the state unmodified. -/
theorem is_locked_false_state (now : Int) (v : Vault)
    (h : (is_locked now v).1 = false) : is_locked now v = (false, v) := by
  unfold is_locked at h ⊢
  cases hc : v.cipher_suite with
  | none =>
    rw [hc] at h
    simp at h
  | some k =>
    rw [hc] at h
    cases hl : v.last_access with
    | none => rfl
    | some t =>
      rw [hl] at h
      have h' : (if 0 < v.auto_lock_timeout ∧ v.auto_lock_timeout < now - t then
          ((true : Bool), lock_vault v) else ((false : Bool), v)).1 = false := h
      show (if 0 < v.auto_lock_timeout ∧ v.auto_lock_timeout < now - t then
          ((true : Bool), lock_vault v) else ((false : Bool), v)) = (false, v)
      by_cases hcond : 0 < v.auto_lock_timeout ∧ v.auto_lock_timeout < now - t
      · rw [if_pos hcond] at h'
        simp at h'
      · rw [if_neg hcond]

/-! ## C1 — wrong password never decrypts / round-trip recovery -/

/-- Claim C1 at its failing input (code bug): starting from a fresh state,
`unlock("correct")` creates the vault (true) but never persists the
creation salt; after a store and a lock, `unlock("wrong")` draws a fresh
random salt (here salt 2, distinct from creation salt 1), fails, and
leaves the vault locked with no credentials — as the claim states — but
the subsequent `unlock("correct")` (salt 3) derives its key from the salt
file written during the failed attempt and also returns false, where the
claim requires true with the stored entry recovered. -/
theorem C1_unlock_scenario :
    (unlock_vault 0 1 "correct" vinit).1 = true ∧
    (store_credential 1 "mail" "a" "x" (unlock_vault 0 1 "correct" vinit).2).1 = true ∧
    (unlock_vault 2 2 "wrong"
        (lock_vault
          (store_credential 1 "mail" "a" "x" (unlock_vault 0 1 "correct" vinit).2).2)).1 =
      false ∧
    (unlock_vault 2 2 "wrong"
        (lock_vault
          (store_credential 1 "mail" "a" "x"
            (unlock_vault 0 1 "correct" vinit).2).2)).2.cipher_suite = none ∧
    (unlock_vault 2 2 "wrong"
        (lock_vault
          (store_credential 1 "mail" "a" "x"
            (unlock_vault 0 1 "correct" vinit).2).2)).2.credentials = [] ∧
    (unlock_vault 3 3 "correct"
        (unlock_vault 2 2 "wrong"
          (lock_vault
            (store_credential 1 "mail" "a" "x"
              (unlock_vault 0 1 "correct" vinit).2).2)).2).1 = false := by
  decide

/-! ## C2 — retrieval mutates memory, not the vault file -/

/-- Counterexample to claim C2: on the concrete unlocked vault `v0`, the
single-entry retrieval bumps the in-memory `access_count` but the vault
file is byte-for-byte unchanged — it is not re-encrypted and rewritten,
and now disagrees with the in-memory credential map. -/
theorem C2_retrieve_counterexample :
    (retrieve_credential 100 "mail" (some "a") v0).1 =
      some (.entry { entry0 with access_count := 1, last_accessed := some 100 }) ∧
    (retrieve_credential 100 "mail" (some "a") v0).2.vault_file = v0.vault_file ∧
    (retrieve_credential 100 "mail" (some "a") v0).2.credentials ≠ v0.credentials ∧
    ((retrieve_credential 100 "mail" (some "a") v0).2.vault_file.map
        (fun blob => blob.2.credentials)) ≠
      some (retrieve_credential 100 "mail" (some "a") v0).2.credentials := by
  decide

/-- Claim C2 as amended: on every unlocked vault, a single-entry
retrieval increments that entry's `access_count` and sets its
`last_accessed` in the in-memory map, but performs no vault-file write:
the persisted file is exactly what it was before the read. -/
theorem C2_retrieve_updates_memory_only (now : Int) (service ident : String)
    (v : Vault) (svc : List (String × CredEntry)) (e : CredEntry)
    (hunlocked : (is_locked now v).1 = false)
    (hsvc : alookup v.credentials service = some svc)
    (he : alookup svc ident = some e) :
    (retrieve_credential now service (some ident) v).1 =
      some (.entry { e with access_count := e.access_count + 1,
                            last_accessed := some now }) ∧
    (retrieve_credential now service (some ident) v).2.vault_file = v.vault_file := by
  have h2 := is_locked_false_state now v hunlocked
  simp only [retrieve_credential, h2, hsvc, he]
  simp

/-- Witness for the amended C2, at the concrete unlocked vault `v0`. -/
theorem C2_retrieve_updates_memory_only_witness :
    (retrieve_credential 100 "mail" (some "a") v0).1 =
      some (.entry { entry0 with access_count := entry0.access_count + 1,
                                 last_accessed := some 100 }) ∧
    (retrieve_credential 100 "mail" (some "a") v0).2.vault_file = v0.vault_file :=
  C2_retrieve_updates_memory_only 100 "mail" "a" v0 [("a", entry0)] entry0
    (by decide) (by decide) (by decide)

/-! ## C7 — auto-lock on the next `is_locked` observation -/

/-- Claim C7: if the vault is unlocked and strictly more than
`auto_lock_timeout` seconds have passed since `last_access`, the next
`is_locked` call self-transitions to the locked state — discarding the
derived key and clearing the in-memory credential map — and answers true,
so the vault is never observed unlocked past the idle timeout. -/
theorem C7_auto_lock (now : Int) (v : Vault) (k : Key) (t : Int)
    (hk : v.cipher_suite = some k) (ht : v.last_access = some t)
    (hpos : 0 < v.auto_lock_timeout) (hidle : v.auto_lock_timeout < now - t) :
    is_locked now v = (true, lock_vault v) ∧
    (lock_vault v).cipher_suite = none ∧
    (lock_vault v).credentials = [] ∧
    (lock_vault v).last_access = none := by
  refine ⟨?_, rfl, rfl, rfl⟩
  unfold is_locked
  simp [hk, ht, hpos, hidle]

/-- Witness for C7: an unlocked vault last touched at time 100 with a
1800-second timeout, observed at time 2000. -/
theorem C7_auto_lock_witness :
    is_locked 2000 v0 = (true, lock_vault v0) ∧
    (lock_vault v0).cipher_suite = none ∧
    (lock_vault v0).credentials = [] ∧
    (lock_vault v0).last_access = none :=
  C7_auto_lock 2000 v0 key0 100 (by decide) (by decide) (by decide) (by decide)

/-! ## C8 — locked vault refuses by result value, unchanged -/

/-- Claim C8: while the vault is locked (no cipher suite held), every
operation reports failure as a value and leaves the state untouched:
`store_credential` and `delete_credential` return false,
`retrieve_credential` returns none (with or without an identifier), and
`get_vault_stats` returns the bare locked status, which carries no counts
and no payloads. -/
theorem C8_locked_refusals (now : Int) (service ident payload : String) (v : Vault)
    (h : v.cipher_suite = none) :
    store_credential now service ident payload v = (false, v) ∧
    retrieve_credential now service (some ident) v = (none, v) ∧
    retrieve_credential now service none v = (none, v) ∧
    delete_credential now service (some ident) v = (false, v) ∧
    delete_credential now service none v = (false, v) ∧
    get_vault_stats now v = (.locked, v) := by
  have hl : is_locked now v = (true, v) := by
    unfold is_locked
    rw [h]
  simp only [store_credential, retrieve_credential, delete_credential,
    get_vault_stats, hl]
  simp

/-- Witness for C8, at the freshly constructed (locked) vault state. -/
theorem C8_locked_refusals_witness :
    store_credential 5 "mail" "a" "x" vinit = (false, vinit) ∧
    retrieve_credential 5 "mail" (some "a") vinit = (none, vinit) ∧
    retrieve_credential 5 "mail" none vinit = (none, vinit) ∧
    delete_credential 5 "mail" (some "a") vinit = (false, vinit) ∧
    delete_credential 5 "mail" none vinit = (false, vinit) ∧
    get_vault_stats 5 vinit = (.locked, vinit) :=
  C8_locked_refusals 5 "mail" "a" "x" vinit (by decide)

/-! ## C9 — `change_master_password` ignores `current` when unlocked -/

/-- Claim C9: when the vault is already unlocked at call time,
`change_master_password` never consults the `current` password: the result
and the final state are identical for any two values of that argument. -/
theorem C9_change_password_ignores_current (now : Int) (s1 s2 : Salt)
    (c1 c2 new_password : String) (v : Vault)
    (h : (is_locked now v).1 = false) :
    change_master_password now s1 s2 c1 new_password v =
      change_master_password now s1 s2 c2 new_password v := by
  have h2 := is_locked_false_state now v h
  simp only [change_master_password, h2]

/-- Witness for C9: on the unlocked vault `v0`, two different guesses for
the current password produce identical results and states. -/
theorem C9_change_password_ignores_current_witness :
    change_master_password 100 7 8 "guess-one" "fresh-pw" v0 =
      change_master_password 100 7 8 "guess-two" "fresh-pw" v0 :=
  C9_change_password_ignores_current 100 7 8 "guess-one" "guess-two" "fresh-pw" v0
    (by decide)

end SecurePersonalOS
